import Mathlib

/-!
Verification of the ticket-workflow and authorization logic of the bug-tracker
repository (React/Zustand frontend under src/Frontend and src/unnamed).

The repository ships only the browser client; the FastAPI backend that enforces
the transition validator and the authorization guard is not part of the sources.
Definitions embedded from the client sources cite their file; definitions whose
doc comment starts with `Modelled from the spec:` reconstruct the missing
backend behaviour from the specification.
-/

deriving instance DecidableEq for Except

namespace BugTracker

/-- Ticket workflow statuses, embedded from the `TicketStatus` enum in
src/Frontend/src/lib/utils.ts. -/
inductive TicketStatus
  | idea
  | todo
  | in_progress
  | in_review
  | done
  | cancelled
deriving DecidableEq, Repr, Fintype

/-- Resolution codes, embedded from the `Resolution` enum in
src/Frontend/src/lib/utils.ts. -/
inductive Resolution
  | fixed
  | wont_fix
  | duplicate
  | incomplete
deriving DecidableEq, Repr, Fintype

/-- Issue types, embedded from the `IssueType` enum in
src/Frontend/src/lib/utils.ts. -/
inductive IssueType
  | bug
  | feature
  | task
  | improvement
deriving DecidableEq, Repr, Fintype

/-- Ticket priorities, embedded from the `TicketPriority` enum in
src/Frontend/src/lib/utils.ts. -/
inductive TicketPriority
  | low
  | medium
  | high
  | critical
deriving DecidableEq, Repr, Fintype

/-- Project-scoped roles, embedded from the `ProjectRole` enum in
src/Frontend/src/lib/utils.ts. -/
inductive ProjectRole
  | owner
  | admin
  | developer
  | viewer
deriving DecidableEq, Repr, Fintype

/-- Actions gated by the authorization guard (spec section 4.2). -/
inductive GuardAction
  | view
  | changeStatus
  | editTicketFields
  | deleteTicket
  | manageMembers
  | deleteProject
deriving DecidableEq, Repr, Fintype

/-- Embedded from `getAvailableTransitions` in the TicketDetailsModal component
(src/unnamed/part_003, lines 558-575): the target statuses the client offers
for each current status. -/
def getAvailableTransitions (currentStatus : TicketStatus) : List TicketStatus :=
  match currentStatus with
  | TicketStatus.idea =>
      [TicketStatus.todo, TicketStatus.in_progress, TicketStatus.cancelled]
  | TicketStatus.todo =>
      [TicketStatus.idea, TicketStatus.in_progress, TicketStatus.cancelled]
  | TicketStatus.in_progress =>
      [TicketStatus.todo, TicketStatus.in_review, TicketStatus.cancelled]
  | TicketStatus.in_review =>
      [TicketStatus.in_progress, TicketStatus.done, TicketStatus.cancelled]
  | TicketStatus.done =>
      [TicketStatus.idea, TicketStatus.todo, TicketStatus.in_progress,
       TicketStatus.in_review]
  | TicketStatus.cancelled =>
      [TicketStatus.idea, TicketStatus.todo, TicketStatus.in_progress]

/-- Modelled from the spec: the allowed-transition table of section 4.1. The
backend transition validator is not under src/; this is the table the spec
prescribes for it (the client mirror of the same table is
`getAvailableTransitions` above). -/
def specAllowed (s : TicketStatus) : List TicketStatus :=
  match s with
  | TicketStatus.idea =>
      [TicketStatus.todo, TicketStatus.in_progress, TicketStatus.cancelled]
  | TicketStatus.todo =>
      [TicketStatus.idea, TicketStatus.in_progress, TicketStatus.cancelled]
  | TicketStatus.in_progress =>
      [TicketStatus.todo, TicketStatus.in_review, TicketStatus.cancelled]
  | TicketStatus.in_review =>
      [TicketStatus.in_progress, TicketStatus.done, TicketStatus.cancelled]
  | TicketStatus.done =>
      [TicketStatus.idea, TicketStatus.todo, TicketStatus.in_progress,
       TicketStatus.in_review]
  | TicketStatus.cancelled =>
      [TicketStatus.idea, TicketStatus.todo, TicketStatus.in_progress]

/-- Statuses that close a ticket and carry a resolution code (spec section 4.1:
`done` and `cancelled`). -/
def isClosing (s : TicketStatus) : Bool :=
  s == TicketStatus.done || s == TicketStatus.cancelled

/-- Errors of the transition validator (spec section 7). -/
inductive TransitionError
  | invalidTransition (src dst : TicketStatus)
  | missingResolution
deriving DecidableEq, Repr

/-- Action on the resolution timestamp computed by the validator (spec section
4.1: entering `done` sets the timestamp, leaving `done` clears it). -/
inductive ResolvedAtChange
  | set
  | clear
  | keep
deriving DecidableEq, Repr

/-- Field values a successful validation tells the caller to apply (spec
section 4.1 contract). `noop` is the trivially accepted self-transition. -/
inductive TransitionOutcome
  | noop
  | change (newStatus : TicketStatus) (newResolution : Option Resolution)
      (resolvedAt : ResolvedAtChange)
deriving DecidableEq, Repr

/-- Modelled from the spec: the backend `validateTransition` (spec sections 4.1
and 8) is not under src/. A self-transition is a no-op accepted with no
resolution check; a request targeting `done`/`cancelled` without a resolution
code fails with `missingResolution` (the spec scenario for a ticket in `idea`
requesting `done` with no resolution puts this check before the table check);
a target outside the allowed table fails with `invalidTransition`; otherwise
the outcome carries the new status, the resolution to store (the supplied code
for closing targets, null for all others) and the timestamp action. -/
def validateTransition (current requested : TicketStatus)
    (suppliedResolution : Option Resolution) :
    Except TransitionError TransitionOutcome :=
  if current = requested then
    Except.ok TransitionOutcome.noop
  else if isClosing requested && suppliedResolution.isNone then
    Except.error TransitionError.missingResolution
  else if requested ∈ specAllowed current then
    Except.ok (TransitionOutcome.change requested
      (if isClosing requested then suppliedResolution else none)
      (if requested = TicketStatus.done then ResolvedAtChange.set
       else if current = TicketStatus.done then ResolvedAtChange.clear
       else ResolvedAtChange.keep))
  else
    Except.error (TransitionError.invalidTransition current requested)

/-- Ticket record, embedding the fields of the `Ticket` interface in
src/Frontend/src/lib/utils.ts that the workflow and store claims touch
(timestamps as abstract Nat instants). -/
structure Ticket where
  id : String
  key : String
  title : String
  description : Option String
  type : IssueType
  priority : TicketPriority
  status : TicketStatus
  resolution : Option Resolution
  assignee : Option String
  due_date : Option Nat
  resolved_at : Option Nat
deriving DecidableEq, Repr

/-- Application of a validated outcome to a ticket (spec section 4.1: the
caller applies the returned field values; `now` is the persistence instant
used when the timestamp is set). -/
def applyOutcome (t : Ticket) (o : TransitionOutcome) (now : Nat) : Ticket :=
  match o with
  | TransitionOutcome.noop => t
  | TransitionOutcome.change ns nr rc =>
      { t with
          status := ns
          resolution := nr
          resolved_at :=
            match rc with
            | ResolvedAtChange.set => some now
            | ResolvedAtChange.clear => none
            | ResolvedAtChange.keep => t.resolved_at }

/-- Modelled from the spec: the backend status-change operation (spec section
6) without the role guard; it validates and, on success, returns the updated
ticket. On an error no updated ticket is produced. -/
def statusChangeResult (t : Ticket) (requested : TicketStatus)
    (r : Option Resolution) (now : Nat) : Except TransitionError Ticket :=
  match validateTransition t.status requested r with
  | Except.error e => Except.error e
  | Except.ok o => Except.ok (applyOutcome t o now)

/-- Ticket state persisted after a status-change request: the updated ticket on
success, the unchanged ticket when the request was rejected (spec section 7:
evaluation precedes any write, so no partial state exists). -/
def persistedTicket (t : Ticket) (requested : TicketStatus)
    (r : Option Resolution) (now : Nat) : Ticket :=
  match statusChangeResult t requested r now with
  | Except.ok t2 => t2
  | Except.error _ => t

/-- Modelled from the spec: the backend authorization guard `authorize` (spec
section 4.2) is not under src/; this is its role-action permission table. -/
def authorize (role : ProjectRole) (action : GuardAction) : Bool :=
  match action with
  | GuardAction.view => true
  | GuardAction.changeStatus => role != ProjectRole.viewer
  | GuardAction.editTicketFields =>
      role == ProjectRole.admin || role == ProjectRole.owner
  | GuardAction.deleteTicket =>
      role == ProjectRole.admin || role == ProjectRole.owner
  | GuardAction.manageMembers =>
      role == ProjectRole.admin || role == ProjectRole.owner
  | GuardAction.deleteProject => role == ProjectRole.owner

/-- Errors surfaced by the status-change request handler (spec section 6). -/
inductive StatusChangeError
  | forbidden (action : GuardAction)
  | transition (e : TransitionError)
deriving DecidableEq, Repr

/-- Modelled from the spec: the request handler `handleStatusChange` of spec
section 6 (backend not under src/): the guard is checked first, then the
transition validator, then the result is applied. -/
def handleStatusChange (callerRole : ProjectRole) (t : Ticket)
    (requested : TicketStatus) (r : Option Resolution) (now : Nat) :
    Except StatusChangeError Ticket :=
  if authorize callerRole GuardAction.changeStatus then
    match validateTransition t.status requested r with
    | Except.error e => Except.error (StatusChangeError.transition e)
    | Except.ok o => Except.ok (applyOutcome t o now)
  else
    Except.error (StatusChangeError.forbidden GuardAction.changeStatus)

/-- Embedded from the TicketDetailsModal sidebar (src/unnamed/part_003, lines
1069-1080): the Apply Status Change button is rendered only when a status is
selected and differs from the current status, so a self-transition is never
submitted from the modal. -/
def applyButtonShown (selectedStatus : Option TicketStatus)
    (current : TicketStatus) : Bool :=
  match selectedStatus with
  | some s2 => s2 != current
  | none => false

/-- Invariant of spec section 3: the resolution code is present exactly on the
closing statuses. -/
def resolutionInvariant (t : Ticket) : Bool :=
  t.resolution.isSome == isClosing t.status

/-- Creation payload submitted by CreateTicketModal (src/unnamed/part_003):
title, description, type, priority and due date only. -/
structure TicketCreate where
  title : String
  description : Option String
  type : IssueType
  priority : TicketPriority
  due_date : Option Nat
deriving DecidableEq, Repr

/-- Modelled from the spec: the backend creation endpoint is not under src/
(the client CreateTicketModal submits no status and no resolution). A newly
created ticket enters the workflow in the initial status of the state machine
of spec section 4.1 with no resolution code and no resolution timestamp. -/
def createTicket (id key : String) (d : TicketCreate) : Ticket :=
  { id := id
    key := key
    title := d.title
    description := d.description
    type := d.type
    priority := d.priority
    status := TicketStatus.idea
    resolution := none
    assignee := none
    due_date := d.due_date
    resolved_at := none }

/-- Edit payload of the ticket-edit forms (EditTicketModal.handleSubmit in
src/Frontend/src/components/kanban/KanbanColumn.tsx lines 105-115, and
handleSaveEdit in src/unnamed/part_003): title, description, type, priority
and due date; neither status nor resolution is part of the update. -/
structure TicketUpdate where
  title : String
  description : Option String
  type : IssueType
  priority : TicketPriority
  due_date : Option Nat
deriving DecidableEq, Repr

/-- Application of an edit payload to a ticket: exactly the submitted fields
change. -/
def applyUpdate (t : Ticket) (u : TicketUpdate) : Ticket :=
  { t with
      title := u.title
      description := u.description
      type := u.type
      priority := u.priority
      due_date := u.due_date }

/-- Project member, embedding the fields of `ProjectMember`
(src/Frontend/src/lib/utils.ts) used by the membership claims. -/
structure Member where
  user_id : String
  role : ProjectRole
deriving DecidableEq, Repr

/-- Embedded from the MemberManagement role select (src/unnamed AdminStatsPanel
file, lines 322-324): the roles a role update can assign; `owner` is not
offered. -/
def roleUpdateOptions : List ProjectRole :=
  [ProjectRole.admin, ProjectRole.developer, ProjectRole.viewer]

/-- Embedded from the ProjectSettings add-member role buttons
(src/Frontend/src/pages/ProjectSettings.tsx lines 279-322) and the
InviteMemberModal radio options: the roles a new member can be given; `owner`
is not offered. -/
def addMemberRoleOptions : List ProjectRole :=
  [ProjectRole.viewer, ProjectRole.developer, ProjectRole.admin]

/-- Embedded from the member rows of MemberManagement (line 340) and of
ProjectSettings (line 215): the edit-role and remove actions are rendered only
for rows whose role is not `owner`. -/
def memberActionsOffered (m : Member) : Bool :=
  m.role != ProjectRole.owner

/-- Role update applied to a member list (projectsApi.updateMemberRole caller
in MemberManagement, handleUpdateRole): the matching member gets the selected
role. -/
def updateRoleOp (ms : List Member) (uid : String) (r : ProjectRole) :
    List Member :=
  ms.map fun m => if m.user_id = uid then { m with role := r } else m

/-- Member removal applied to a member list (handleRemoveMember in
MemberManagement and ProjectSettings). -/
def removeMemberOp (ms : List Member) (uid : String) : List Member :=
  ms.filter fun m => m.user_id ≠ uid

/-- Member addition applied to a member list (handleAddMember in
ProjectSettings). -/
def addMemberOp (ms : List Member) (m : Member) : List Member :=
  ms ++ [m]

/-- Number of members of a list holding the `owner` role. -/
def ownerCount (ms : List Member) : Nat :=
  ms.countP fun m => m.role == ProjectRole.owner

/-- Error object of a rejected API call, with the optional backend detail
message read by the store (`error.response?.data?.detail`). -/
structure ApiError where
  detail : Option String
deriving DecidableEq, Repr

/-- Zustand ticket-store state, embedded from the `TicketState` fields of
src/Frontend/src/stores/ticketStore.ts that `changeTicketStatus` can touch. -/
structure TicketState where
  tickets : List Ticket
  currentTicket : Option Ticket
  isLoading : Bool
  error : Option String
  totalCount : Nat
deriving DecidableEq, Repr

/-- Embedded from the store action `changeTicketStatus`
(src/Frontend/src/stores/ticketStore.ts lines 101-114), as a pure state
transformer over the outcome of the `ticketsApi.changeStatus` call. On success
the returned ticket replaces each list entry with the matching id and the
current ticket when its id matches; on failure only the error message is set
and the error is rethrown (second component). -/
def changeTicketStatus (s : TicketState) (id : String)
    (apiResult : Except ApiError Ticket) :
    TicketState × Except ApiError Ticket :=
  match apiResult with
  | Except.ok updatedTicket =>
      ({ s with
          tickets := s.tickets.map fun t =>
            if t.id = id then updatedTicket else t
          currentTicket :=
            match s.currentTicket with
            | some ct => if ct.id = id then some updatedTicket else some ct
            | none => none },
        Except.ok updatedTicket)
  | Except.error e =>
      ({ s with error := some (e.detail.getD "Failed to change status") },
        Except.error e)

/-- Concrete ticket used by the witness statements. -/
def sampleTicket : Ticket :=
  { id := "T1"
    key := "PRJ-1"
    title := "A bug"
    description := none
    type := IssueType.bug
    priority := TicketPriority.medium
    status := TicketStatus.idea
    resolution := none
    assignee := none
    due_date := none
    resolved_at := none }

/-- Concrete closed ticket used by the witness statements. -/
def sampleDoneTicket : Ticket :=
  { sampleTicket with
      id := "T2"
      key := "PRJ-2"
      status := TicketStatus.done
      resolution := some Resolution.fixed
      resolved_at := some 5 }

/-- Concrete edit payload used by the witness statements. -/
def sampleUpdate : TicketUpdate :=
  { title := "Renamed"
    description := some "text"
    type := IssueType.task
    priority := TicketPriority.high
    due_date := some 9 }

/-- Concrete store state used by the witness statements. -/
def sampleState : TicketState :=
  { tickets := [sampleTicket, sampleDoneTicket]
    currentTicket := some sampleTicket
    isLoading := false
    error := none
    totalCount := 2 }

/-- Concrete result of reopening the closed sample ticket, used by the witness
statements. -/
def sampleReopenedTicket : Ticket :=
  { sampleDoneTicket with
      status := TicketStatus.todo
      resolution := none
      resolved_at := none }

/-- Concrete ticket returned by a successful API call, used by the witness
statements. -/
def sampleUpdatedTicket : Ticket :=
  { sampleTicket with status := TicketStatus.in_progress }

/-- Concrete member list with exactly one owner, used by the witness
statements. -/
def sampleMembers : List Member :=
  [{ user_id := "u1", role := ProjectRole.owner },
   { user_id := "u2", role := ProjectRole.developer }]

/-- Helper: from a closing status every allowed target of the transition table
is a non-closing status. -/
theorem closing_allowed_not_closing :
    ∀ s q : TicketStatus, isClosing s = true → q ∈ specAllowed s →
      isClosing q = false := by decide

/-- C1 (as frozen, refuted corner): for the pair (idea, done), which is not in
the allowed-transition table, a request with no resolution code is rejected
with `missingResolution` rather than `invalidTransition`, because the spec
scenario for a ticket in `idea` requesting `done` with no resolution requires
the `MissingResolution` answer, putting the resolution check first. -/
theorem C1_transition_table_counterexample :
    TicketStatus.done ∉ getAvailableTransitions TicketStatus.idea ∧
    validateTransition TicketStatus.idea TicketStatus.done none ≠
      Except.error
        (TransitionError.invalidTransition TicketStatus.idea TicketStatus.done) ∧
    validateTransition TicketStatus.idea TicketStatus.done none =
      Except.error TransitionError.missingResolution := by decide

/-- C1 (amended): for every ordered pair of distinct statuses, a transition is
accepted (for some supplied resolution) exactly when the target is in the
allowed set offered by the code table `getAvailableTransitions`; every pair
not in the table is rejected, with `invalidTransition` whenever a resolution
code accompanies the request or the target is not closing, and with
`missingResolution` when the target is `done`/`cancelled` and no resolution is
supplied; and the code table agrees with the table of the spec. -/
theorem C1_transition_table :
    ∀ f t : TicketStatus, f ≠ t →
      ((∃ r, (validateTransition f t (some r)).isOk = true) ↔
          t ∈ getAvailableTransitions f) ∧
      (t ∉ getAvailableTransitions f →
          (∀ r, validateTransition f t (some r) =
              Except.error (TransitionError.invalidTransition f t)) ∧
          (isClosing t = false →
              validateTransition f t none =
                Except.error (TransitionError.invalidTransition f t)) ∧
          (isClosing t = true →
              validateTransition f t none =
                Except.error TransitionError.missingResolution)) ∧
      getAvailableTransitions f = specAllowed f := by decide

/-- Witness for C1 at the concrete pair (idea, done). -/
theorem C1_transition_table_witness :
    TicketStatus.idea ≠ TicketStatus.done ∧
    (((∃ r, (validateTransition TicketStatus.idea TicketStatus.done
          (some r)).isOk = true) ↔
        TicketStatus.done ∈ getAvailableTransitions TicketStatus.idea) ∧
      (TicketStatus.done ∉ getAvailableTransitions TicketStatus.idea →
          (∀ r, validateTransition TicketStatus.idea TicketStatus.done (some r) =
              Except.error (TransitionError.invalidTransition TicketStatus.idea
                TicketStatus.done)) ∧
          (isClosing TicketStatus.done = false →
              validateTransition TicketStatus.idea TicketStatus.done none =
                Except.error (TransitionError.invalidTransition TicketStatus.idea
                  TicketStatus.done)) ∧
          (isClosing TicketStatus.done = true →
              validateTransition TicketStatus.idea TicketStatus.done none =
                Except.error TransitionError.missingResolution)) ∧
      getAvailableTransitions TicketStatus.idea =
        specAllowed TicketStatus.idea) :=
  ⟨by decide, C1_transition_table TicketStatus.idea TicketStatus.done (by decide)⟩

/-- C2 (as frozen, refuted corner): a request whose current status and target
are both `done` and that carries no resolution code is the trivially accepted
self-transition no-op, not a `missingResolution` rejection, because the spec
exempts self-transitions from the resolution check. -/
theorem C2_missingResolution_counterexample :
    validateTransition TicketStatus.done TicketStatus.done none =
      Except.ok TransitionOutcome.noop ∧
    validateTransition TicketStatus.done TicketStatus.done none ≠
      Except.error TransitionError.missingResolution := by decide

/-- C2 (amended): for every current status and every requested target equal to
`done` or `cancelled` and distinct from the current status, a request with no
resolution code is rejected with `missingResolution` and the persisted ticket
is unchanged. -/
theorem C2_missingResolution (t : Ticket) (q : TicketStatus) (now : Nat)
    (hq : isClosing q = true) (hne : t.status ≠ q) :
    statusChangeResult t q none now =
      Except.error TransitionError.missingResolution ∧
    persistedTicket t q none now = t := by
  have hv : validateTransition t.status q none =
      Except.error TransitionError.missingResolution := by
    unfold validateTransition
    simp [hne, hq]
  refine ⟨?_, ?_⟩
  · unfold statusChangeResult
    rw [hv]
  · unfold persistedTicket statusChangeResult
    rw [hv]

/-- Witness for C2 at a concrete ticket in `idea` requesting `done`. -/
theorem C2_missingResolution_witness :
    isClosing TicketStatus.done = true ∧
    sampleTicket.status ≠ TicketStatus.done ∧
    (statusChangeResult sampleTicket TicketStatus.done none 7 =
        Except.error TransitionError.missingResolution ∧
      persistedTicket sampleTicket TicketStatus.done none 7 = sampleTicket) :=
  ⟨by decide, by decide,
    C2_missingResolution sampleTicket TicketStatus.done 7 (by decide) (by decide)⟩

/-- C5: the `changeStatus` action is authorized exactly for developer, admin
and owner; a status-change request of a viewer is rejected with `forbidden`
naming the action. -/
theorem C5_changeStatus_authorization :
    (∀ role : ProjectRole,
        authorize role GuardAction.changeStatus = true ↔
          (role = ProjectRole.developer ∨ role = ProjectRole.admin ∨
            role = ProjectRole.owner)) ∧
    authorize ProjectRole.viewer GuardAction.changeStatus = false ∧
    authorize ProjectRole.developer GuardAction.changeStatus = true ∧
    (∀ (t : Ticket) (q : TicketStatus) (r : Option Resolution) (now : Nat),
        handleStatusChange ProjectRole.viewer t q r now =
          Except.error (StatusChangeError.forbidden GuardAction.changeStatus)) := by
  refine ⟨by decide, by decide, by decide, ?_⟩
  intro t q r now
  simp [handleStatusChange, authorize]

/-- C6: the `editTicketFields` action is authorized exactly for admin and
owner; in particular not for developer, and the owner is permitted. -/
theorem C6_editTicketFields_authorization :
    (∀ role : ProjectRole,
        authorize role GuardAction.editTicketFields = true ↔
          (role = ProjectRole.admin ∨ role = ProjectRole.owner)) ∧
    authorize ProjectRole.developer GuardAction.editTicketFields = false ∧
    authorize ProjectRole.admin GuardAction.editTicketFields = true ∧
    authorize ProjectRole.owner GuardAction.editTicketFields = true := by decide

/-- C7: the `deleteProject` action is authorized only for the owner; an admin
is not permitted. -/
theorem C7_deleteProject_authorization :
    (∀ role : ProjectRole,
        authorize role GuardAction.deleteProject = true ↔
          role = ProjectRole.owner) ∧
    authorize ProjectRole.admin GuardAction.deleteProject = false ∧
    authorize ProjectRole.owner GuardAction.deleteProject = true := by decide

/-- C8: a self-transition is accepted trivially as a no-op for every status
and every supplied resolution (including none, so no resolution check), the
persisted ticket is unchanged, the client never offers the current status as a
target, and the Apply button is not rendered for an unchanged selection. -/
theorem C8_self_transition_noop :
    (∀ (s : TicketStatus) (r : Option Resolution),
        validateTransition s s r = Except.ok TransitionOutcome.noop) ∧
    (∀ (t : Ticket) (r : Option Resolution) (now : Nat),
        statusChangeResult t t.status r now = Except.ok t ∧
        persistedTicket t t.status r now = t) ∧
    (∀ s : TicketStatus, s ∉ getAvailableTransitions s) ∧
    (∀ s : TicketStatus, applyButtonShown (some s) s = false) := by
  refine ⟨by decide, ?_, by decide, by decide⟩
  intro t r now
  constructor <;>
    simp [statusChangeResult, persistedTicket, validateTransition, applyOutcome]

/-- Helper: a successful status change is either the identity no-op or the
application of a `change` outcome produced by the validator table branch. -/
theorem statusChangeResult_ok_cases (t : Ticket) (q : TicketStatus)
    (r : Option Resolution) (now : Nat) (t2 : Ticket)
    (h : statusChangeResult t q r now = Except.ok t2) :
    (t.status = q ∧ t2 = t) ∨
    (t.status ≠ q ∧ (isClosing q && r.isNone) = false ∧
      q ∈ specAllowed t.status ∧
      t2 = applyOutcome t
        (TransitionOutcome.change q
          (if isClosing q then r else none)
          (if q = TicketStatus.done then ResolvedAtChange.set
           else if t.status = TicketStatus.done then ResolvedAtChange.clear
           else ResolvedAtChange.keep)) now) := by
  unfold statusChangeResult at h
  cases hv : validateTransition t.status q r with
  | error e =>
    rw [hv] at h
    exact absurd h (by simp)
  | ok o =>
    rw [hv] at h
    have h2 : applyOutcome t o now = t2 := by simpa using h
    unfold validateTransition at hv
    by_cases h1 : t.status = q
    · rw [if_pos h1] at hv
      left
      refine ⟨h1, ?_⟩
      have ho : TransitionOutcome.noop = o := by simpa using hv
      rw [← h2, ← ho]
      rfl
    · rw [if_neg h1] at hv
      by_cases hmr : (isClosing q && r.isNone) = true
      · rw [if_pos hmr] at hv
        exact absurd hv (by simp)
      · rw [if_neg hmr] at hv
        by_cases hall : q ∈ specAllowed t.status
        · rw [if_pos hall] at hv
          right
          have ho : TransitionOutcome.change q
              (if isClosing q then r else none)
              (if q = TicketStatus.done then ResolvedAtChange.set
               else if t.status = TicketStatus.done then ResolvedAtChange.clear
               else ResolvedAtChange.keep) = o := by
            injection hv
          have hmr2 : (isClosing q && r.isNone) = false := by
            simp only [Bool.not_eq_true] at hmr
            exact hmr
          refine ⟨h1, hmr2, hall, ?_⟩
          rw [← h2, ← ho]
        · rw [if_neg hall] at hv
          exact absurd hv (by simp)

/-- C3: on every successful status change that leaves a closing status
(`done`/`cancelled`) the operation itself stores a null resolution, leaving
`done` clears the resolution timestamp, and entering `done` stamps the
persistence instant. -/
theorem C3_closing_source_clears (t : Ticket) (q : TicketStatus)
    (r : Option Resolution) (now : Nat) (t2 : Ticket)
    (h : statusChangeResult t q r now = Except.ok t2) :
    (isClosing t.status = true → t2.status ≠ t.status →
        t2.resolution = none ∧
        (t.status = TicketStatus.done → t2.resolved_at = none)) ∧
    (t2.status = TicketStatus.done → t.status ≠ TicketStatus.done →
        t2.resolved_at = some now) := by
  rcases statusChangeResult_ok_cases t q r now t2 h with
    ⟨_, ht⟩ | ⟨hne, _, hall, ht⟩
  · subst ht
    exact ⟨fun _ hne => absurd rfl hne, fun hd hnd => absurd hd hnd⟩
  · subst ht
    constructor
    · intro hclos _
      have hqnc : isClosing q = false :=
        closing_allowed_not_closing t.status q hclos hall
      have hqd : q ≠ TicketStatus.done := by
        intro hq
        rw [hq] at hqnc
        simp [isClosing] at hqnc
      constructor
      · simp [applyOutcome, hqnc]
      · intro hd
        simp [applyOutcome, hqd, hd]
    · intro ht2 hnd
      have hq : q = TicketStatus.done := by
        simpa [applyOutcome] using ht2
      simp [applyOutcome, hq]

/-- Witness for C3: reopening the closed sample ticket to `todo` clears both
the resolution and the resolution timestamp. -/
theorem C3_closing_source_clears_witness :
    statusChangeResult sampleDoneTicket TicketStatus.todo none 7 =
      Except.ok sampleReopenedTicket ∧
    ((isClosing sampleDoneTicket.status = true →
        sampleReopenedTicket.status ≠ sampleDoneTicket.status →
        sampleReopenedTicket.resolution = none ∧
        (sampleDoneTicket.status = TicketStatus.done →
          sampleReopenedTicket.resolved_at = none)) ∧
      (sampleReopenedTicket.status = TicketStatus.done →
        sampleDoneTicket.status ≠ TicketStatus.done →
        sampleReopenedTicket.resolved_at = some 7)) :=
  ⟨by decide,
    C3_closing_source_clears sampleDoneTicket TicketStatus.todo none 7
      sampleReopenedTicket (by decide)⟩

/-- C4: the resolution invariant (resolution present exactly on closing
statuses) is established by creation and preserved by every field edit and
every successful status change. -/
theorem C4_resolution_invariant :
    (∀ (id key : String) (d : TicketCreate),
        resolutionInvariant (createTicket id key d) = true) ∧
    (∀ (t : Ticket) (u : TicketUpdate), resolutionInvariant t = true →
        resolutionInvariant (applyUpdate t u) = true) ∧
    (∀ (t : Ticket) (q : TicketStatus) (r : Option Resolution) (now : Nat)
        (t2 : Ticket), resolutionInvariant t = true →
        statusChangeResult t q r now = Except.ok t2 →
        resolutionInvariant t2 = true) := by
  refine ⟨fun id key d => rfl, ?_, ?_⟩
  · intro t u h
    simpa [resolutionInvariant, applyUpdate] using h
  · intro t q r now t2 hinv h
    rcases statusChangeResult_ok_cases t q r now t2 h with
      ⟨_, ht⟩ | ⟨_, hmr, _, ht⟩
    · rw [ht]
      exact hinv
    · subst ht
      simp only [resolutionInvariant, applyOutcome]
      by_cases hq : isClosing q = true
      · cases r with
        | none => simp [hq] at hmr
        | some a => simp [hq]
      · have hq2 : isClosing q = false := by
          simpa using hq
        simp [hq2]

/-- Witness for C4 at concrete tickets: creation, a field edit and the
reopening status change each leave the resolution invariant holding. -/
theorem C4_resolution_invariant_witness :
    resolutionInvariant
      (createTicket "T9" "PRJ-9"
        { title := "New", description := none, type := IssueType.bug,
          priority := TicketPriority.low, due_date := none }) = true ∧
    resolutionInvariant sampleTicket = true ∧
    resolutionInvariant (applyUpdate sampleTicket sampleUpdate) = true ∧
    statusChangeResult sampleDoneTicket TicketStatus.todo none 7 =
      Except.ok sampleReopenedTicket ∧
    resolutionInvariant sampleReopenedTicket = true :=
  ⟨C4_resolution_invariant.1 "T9" "PRJ-9"
      { title := "New", description := none, type := IssueType.bug,
        priority := TicketPriority.low, due_date := none },
    by decide,
    C4_resolution_invariant.2.1 sampleTicket sampleUpdate (by decide),
    by decide,
    C4_resolution_invariant.2.2 sampleDoneTicket TicketStatus.todo none 7
      sampleReopenedTicket (by decide) (by decide)⟩

/-- Helper: a map that never changes whether an element holds the owner role
keeps the owner count. -/
theorem ownerCount_map_eq (l : List Member) (f : Member → Member)
    (h : ∀ m ∈ l, ((f m).role == ProjectRole.owner) =
        (m.role == ProjectRole.owner)) :
    ownerCount (l.map f) = ownerCount l := by
  induction l with
  | nil => rfl
  | cons a l ih =>
    simp only [ownerCount, List.map_cons, List.countP_cons] at *
    rw [h a (List.mem_cons_self a l),
      ih (fun m hm => h m (List.mem_cons_of_mem a hm))]

/-- Helper: a role update that targets only non-owner rows keeps the owner
count. -/
theorem ownerCount_updateRoleOp (ms : List Member) (uid : String)
    (r : ProjectRole) (hr : r ≠ ProjectRole.owner)
    (h : ∀ m ∈ ms, m.user_id = uid → m.role ≠ ProjectRole.owner) :
    ownerCount (updateRoleOp ms uid r) = ownerCount ms := by
  unfold updateRoleOp
  refine ownerCount_map_eq ms _ ?_
  intro m hm
  by_cases hid : m.user_id = uid
  · have h1 : (r == ProjectRole.owner) = false := by
      simp [hr]
    have h2 : (m.role == ProjectRole.owner) = false := by
      simp [h m hm hid]
    simp [hid, h1, h2]
  · simp [hid]

/-- Helper: removing only non-owner rows keeps the owner count. -/
theorem ownerCount_removeMemberOp (ms : List Member) (uid : String)
    (h : ∀ m ∈ ms, m.user_id = uid → m.role ≠ ProjectRole.owner) :
    ownerCount (removeMemberOp ms uid) = ownerCount ms := by
  induction ms with
  | nil => rfl
  | cons a l ih =>
    have ha := h a (List.mem_cons_self a l)
    have hrest : ∀ m ∈ l, m.user_id = uid → m.role ≠ ProjectRole.owner :=
      fun m hm => h m (List.mem_cons_of_mem a hm)
    by_cases hid : a.user_id = uid
    · have h2 : (a.role == ProjectRole.owner) = false := by
        simp [ha hid]
      simp [removeMemberOp, List.filter_cons, hid, ownerCount,
        List.countP_cons, h2] at *
      exact ih hrest
    · simp [removeMemberOp, List.filter_cons, hid, ownerCount,
        List.countP_cons] at *
      rw [ih hrest]

/-- Helper: adding a member contributes its own owner flag to the count. -/
theorem ownerCount_addMemberOp (ms : List Member) (m : Member) :
    ownerCount (addMemberOp ms m) =
      ownerCount ms + ownerCount [m] := by
  simp [addMemberOp, ownerCount, List.countP_append]

/-- C9: the member-management UI offers no remove or role-change action on the
owner row, never offers the owner role as an assignable or invitable role, and
consequently each operation it can issue keeps a project with exactly one
owner at exactly one owner. -/
theorem C9_owner_protected :
    (∀ m : Member, m.role = ProjectRole.owner →
        memberActionsOffered m = false) ∧
    ProjectRole.owner ∉ roleUpdateOptions ∧
    ProjectRole.owner ∉ addMemberRoleOptions ∧
    (∀ (ms : List Member) (uid : String) (r : ProjectRole) (nm : Member),
        ownerCount ms = 1 →
        ((∀ m ∈ ms, m.user_id = uid → memberActionsOffered m = true) →
            (r ∈ roleUpdateOptions →
              ownerCount (updateRoleOp ms uid r) = 1) ∧
            ownerCount (removeMemberOp ms uid) = 1) ∧
        (nm.role ∈ addMemberRoleOptions →
          ownerCount (addMemberOp ms nm) = 1)) := by
  refine ⟨?_, by decide, by decide, ?_⟩
  · intro m hm
    simp [memberActionsOffered, hm]
  · intro ms uid r nm hone
    have offered_ne : ∀ m : Member, memberActionsOffered m = true →
        m.role ≠ ProjectRole.owner := by
      intro m hm
      simpa [memberActionsOffered] using hm
    refine ⟨?_, ?_⟩
    · intro hguard
      have hne : ∀ m ∈ ms, m.user_id = uid → m.role ≠ ProjectRole.owner :=
        fun m hm hid => offered_ne m (hguard m hm hid)
      refine ⟨?_, ?_⟩
      · intro hrmem
        have hr : r ≠ ProjectRole.owner := by
          intro he
          subst he
          exact (by decide : ProjectRole.owner ∉ roleUpdateOptions) hrmem
        rw [ownerCount_updateRoleOp ms uid r hr hne]
        exact hone
      · rw [ownerCount_removeMemberOp ms uid hne]
        exact hone
    · intro hnm
      have hnr : nm.role ≠ ProjectRole.owner := by
        intro he
        rw [he] at hnm
        exact (by decide : ProjectRole.owner ∉ addMemberRoleOptions) hnm
      have h1 : ownerCount [nm] = 0 := by
        simp [ownerCount, List.countP_cons, hnr]
      rw [ownerCount_addMemberOp, hone, h1]

/-- Witness for C9 on a concrete two-member project: updating, removing and
adding non-owner members keeps exactly one owner, and the owner row offers no
actions. -/
theorem C9_owner_protected_witness :
    memberActionsOffered { user_id := "u1", role := ProjectRole.owner } =
      false ∧
    ownerCount (updateRoleOp sampleMembers "u2" ProjectRole.admin) = 1 ∧
    ownerCount (removeMemberOp sampleMembers "u2") = 1 ∧
    ownerCount
      (addMemberOp sampleMembers { user_id := "u3", role := ProjectRole.viewer }) = 1 :=
  ⟨C9_owner_protected.1 { user_id := "u1", role := ProjectRole.owner } rfl,
    ((C9_owner_protected.2.2.2 sampleMembers "u2" ProjectRole.admin
        { user_id := "u3", role := ProjectRole.viewer } (by decide)).1
      (by decide)).1 (by decide),
    ((C9_owner_protected.2.2.2 sampleMembers "u2" ProjectRole.admin
        { user_id := "u3", role := ProjectRole.viewer } (by decide)).1
      (by decide)).2,
    (C9_owner_protected.2.2.2 sampleMembers "u2" ProjectRole.admin
        { user_id := "u3", role := ProjectRole.viewer } (by decide)).2
      (by decide)⟩

/-- C10: the store action `changeTicketStatus` is atomic with respect to
failure: a rejected API call leaves the ticket list, the current ticket and
every other field unchanged, sets only the error message and rethrows; a
resolved call replaces exactly the list entries with the matching id and the
current ticket when its id matches, leaving everything else unchanged. -/
theorem C10_changeTicketStatus_atomic :
    (∀ (s : TicketState) (id : String) (e : ApiError),
        (changeTicketStatus s id (Except.error e)).1.tickets = s.tickets ∧
        (changeTicketStatus s id (Except.error e)).1.currentTicket =
          s.currentTicket ∧
        (changeTicketStatus s id (Except.error e)).1.isLoading = s.isLoading ∧
        (changeTicketStatus s id (Except.error e)).1.totalCount =
          s.totalCount ∧
        (changeTicketStatus s id (Except.error e)).1.error =
          some (e.detail.getD "Failed to change status") ∧
        (changeTicketStatus s id (Except.error e)).2 = Except.error e) ∧
    (∀ (s : TicketState) (id : String) (ut : Ticket),
        (changeTicketStatus s id (Except.ok ut)).1.tickets.length =
          s.tickets.length ∧
        (∀ (i : Nat) (told : Ticket), s.tickets[i]? = some told →
            (told.id = id →
              (changeTicketStatus s id (Except.ok ut)).1.tickets[i]? =
                some ut) ∧
            (told.id ≠ id →
              (changeTicketStatus s id (Except.ok ut)).1.tickets[i]? =
                some told)) ∧
        (∀ ct : Ticket, s.currentTicket = some ct →
            (ct.id = id →
              (changeTicketStatus s id (Except.ok ut)).1.currentTicket =
                some ut) ∧
            (ct.id ≠ id →
              (changeTicketStatus s id (Except.ok ut)).1.currentTicket =
                some ct)) ∧
        (s.currentTicket = none →
          (changeTicketStatus s id (Except.ok ut)).1.currentTicket = none) ∧
        (changeTicketStatus s id (Except.ok ut)).1.isLoading = s.isLoading ∧
        (changeTicketStatus s id (Except.ok ut)).1.totalCount = s.totalCount ∧
        (changeTicketStatus s id (Except.ok ut)).1.error = s.error ∧
        (changeTicketStatus s id (Except.ok ut)).2 = Except.ok ut) := by
  constructor
  · intro s id e
    exact ⟨rfl, rfl, rfl, rfl, rfl, rfl⟩
  · intro s id ut
    refine ⟨by simp [changeTicketStatus], ?_, ?_, ?_, rfl, rfl, rfl, rfl⟩
    · intro i told hi
      have key : (changeTicketStatus s id (Except.ok ut)).1.tickets[i]? =
          some (if told.id = id then ut else told) := by
        show (s.tickets.map fun t => if t.id = id then ut else t)[i]? = _
        rw [List.getElem?_map, hi]
        rfl
      refine ⟨fun hid => ?_, fun hid => ?_⟩
      · rw [key, if_pos hid]
      · rw [key, if_neg hid]
    · intro ct hct
      refine ⟨fun hid => ?_, fun hid => ?_⟩
      · show (match s.currentTicket with
            | some ct2 => if ct2.id = id then some ut else some ct2
            | none => none) = some ut
        rw [hct]
        simp [hid]
      · show (match s.currentTicket with
            | some ct2 => if ct2.id = id then some ut else some ct2
            | none => none) = some ct
        rw [hct]
        simp [hid]
    · intro hnone
      show (match s.currentTicket with
          | some ct2 => if ct2.id = id then some ut else some ct2
          | none => none) = none
      rw [hnone]

/-- Witness for C10 on the concrete sample store: a rejected call leaves the
list untouched; a resolved call replaces the entry and current ticket with id
T1 and leaves the entry with id T2 unchanged. -/
theorem C10_changeTicketStatus_atomic_witness :
    (changeTicketStatus sampleState "T1"
        (Except.error { detail := none })).1.tickets = sampleState.tickets ∧
    (changeTicketStatus sampleState "T1"
        (Except.ok sampleUpdatedTicket)).1.tickets[0]? =
      some sampleUpdatedTicket ∧
    (changeTicketStatus sampleState "T1"
        (Except.ok sampleUpdatedTicket)).1.tickets[1]? =
      some sampleDoneTicket ∧
    (changeTicketStatus sampleState "T1"
        (Except.ok sampleUpdatedTicket)).1.currentTicket =
      some sampleUpdatedTicket :=
  ⟨(C10_changeTicketStatus_atomic.1 sampleState "T1" { detail := none }).1,
    ((C10_changeTicketStatus_atomic.2 sampleState "T1"
        sampleUpdatedTicket).2.1 0 sampleTicket (by decide)).1 (by decide),
    ((C10_changeTicketStatus_atomic.2 sampleState "T1"
        sampleUpdatedTicket).2.1 1 sampleDoneTicket (by decide)).2 (by decide),
    ((C10_changeTicketStatus_atomic.2 sampleState "T1"
        sampleUpdatedTicket).2.2.1 sampleTicket (by decide)).1 (by decide)⟩

end BugTracker
